import Mathlib

/-!
Verification of the 3MF packaging logic of the nameplate generator scripts
`generate_bambu_3mf.py`, `generate_nameplates.py` and
`generate_all_nameplates.py`.

Meshes are embedded exactly as `numpy-stl` presents them to the scripts:
`mesh.vectors` is a sequence of triangles, each triangle carrying its own
three vertices.  Coordinates are modelled as exact rationals; the scripts
serialize them with Python `str`, which is injective on the float values
involved, so exact equality in the model corresponds to equality within the
decimal-formatting tolerance of the specification.

XML documents built with `xml.etree.ElementTree` are embedded as a small
tree type recording, for each element, its tag, its attribute list (in
insertion order), its text content and its child elements (in insertion
order).
-/

/-- A single vertex of the ingested STL mesh, in millimeters. -/
structure Vertex where
  x : ℚ
  y : ℚ
  z : ℚ
deriving DecidableEq, Repr

/-- One triangle of `mesh.vectors`: three vertices in winding order. -/
structure Tri where
  a : Vertex
  b : Vertex
  c : Vertex
deriving DecidableEq, Repr

/-- A mesh as loaded by `stl_mesh.Mesh.from_file`: the `vectors` sequence,
one entry per triangle, each triangle owning its own three vertices. -/
abbrev Mesh := List Tri

/-- The `v1`/`v2`/`v3` attributes of an emitted `<triangle>` element. -/
structure TriIdx where
  v1 : ℕ
  v2 : ℕ
  v3 : ℕ
deriving DecidableEq, Repr

/-- Embeds the emission loop of `_add_mesh_to_object`
(`generate_bambu_3mf.py` lines 243-256, `generate_nameplates.py` lines
219-232 and the inline copies in `generate_all_nameplates.py`): `vertex_idx`
starts at `i`; for each triangle the three vertices are appended to the
vertex list and one index triple `(vertex_idx, vertex_idx+1, vertex_idx+2)`
is appended to the triangle list, after which `vertex_idx` advances by 3. -/
def addMeshAux : ℕ → Mesh → List Vertex × List TriIdx
  | _, [] => ([], [])
  | i, t :: rest =>
    let r := addMeshAux (i + 3) rest
    (t.a :: t.b :: t.c :: r.1, ⟨i, i + 1, i + 2⟩ :: r.2)

/-- Embeds `_add_mesh_to_object` for one object element: the loop runs with
`vertex_idx = 0`, i.e. the index base resets at the start of each object. -/
def addMeshToObject (m : Mesh) : List Vertex × List TriIdx :=
  addMeshAux 0 m

/-- Reads one triangle back from an emitted vertex list and one emitted
index triple, the way a consumer of the model document resolves the
`v1`/`v2`/`v3` references against the object's vertex list. -/
def extractTriangle (vs : List Vertex) (t : TriIdx) : Option Tri := do
  let va ← vs[t.v1]?
  let vb ← vs[t.v2]?
  let vc ← vs[t.v3]?
  pure ⟨va, vb, vc⟩

/-- Reads a whole mesh back from an emitted vertex list and triangle list;
fails if any index reference dangles. -/
def extractMesh (vs : List Vertex) : List TriIdx → Option Mesh
  | [] => some []
  | t :: ts => do
    let tri ← extractTriangle vs t
    let rest ← extractMesh vs ts
    pure (tri :: rest)

/-- An `xml.etree.ElementTree` element: tag, attributes in insertion order,
text content, and child elements in insertion order. -/
inductive Xml where
  | elem (tag : String) (attrs : List (String × String)) (txt : Option String)
      (children : List Xml)

/-- Tag of an element. -/
def Xml.tag : Xml → String
  | .elem t _ _ _ => t

/-- Attribute list of an element. -/
def Xml.attrs : Xml → List (String × String)
  | .elem _ a _ _ => a

/-- Text content of an element (`element.text`). -/
def Xml.txt : Xml → Option String
  | .elem _ _ s _ => s

/-- Child elements of an element. -/
def Xml.children : Xml → List Xml
  | .elem _ _ _ c => c

/-- Looks an attribute up by name. -/
def Xml.attr (k : String) (x : Xml) : Option String :=
  (x.attrs.find? (fun p => p.1 == k)).map Prod.snd

/-- The children of an element that carry a given tag. -/
def Xml.childrenTagged (t : String) (x : Xml) : List Xml :=
  x.children.filter (fun c => c.tag == t)

/-- All `<item>` children of the `<build>` sections of a model document. -/
def Xml.buildItems (doc : Xml) : List Xml :=
  ((doc.childrenTagged "build").map (Xml.childrenTagged "item")).flatten

/-- All `<object>` children of the `<resources>` sections of a model
document. -/
def Xml.resourceObjects (doc : Xml) : List Xml :=
  ((doc.childrenTagged "resources").map (Xml.childrenTagged "object")).flatten

/-- The `id` attributes of all objects defined in a model document's
resources. -/
def Xml.objectIds (doc : Xml) : List (Option String) :=
  doc.resourceObjects.map (Xml.attr "id")

/-- Whether every build item's `objectid` attribute resolves to the `id` of
an object defined in the document's resources. -/
def Xml.buildResolves (doc : Xml) : Bool :=
  doc.buildItems.all fun it => doc.objectIds.contains (it.attr "objectid")

/-- Whether a content-types document declares a `Default` entry mapping the
given extension to the given content type. -/
def Xml.declaresType (doc : Xml) (ext ctype : String) : Bool :=
  (doc.childrenTagged "Default").any fun d =>
    d.attr "Extension" == some ext && d.attr "ContentType" == some ctype

/-- Embeds Python `str.replace(old, new)` for a one-character pattern and a
one-character replacement: every occurrence of `old` is replaced. -/
def pyReplaceChar (s : String) (old c : Char) : String :=
  ⟨s.data.map fun d => if d == old then c else d⟩

/-- Whether a path string starts with the separator, the test
`os.path.join` uses to recognise an absolute tail. -/
def startsWithSlash (s : String) : Bool :=
  match s.data with
  | [] => false
  | c :: _ => c == '/'

/-- Whether a path string ends with the separator. -/
def endsWithSlash (s : String) : Bool :=
  match s.data.getLast? with
  | none => false
  | some c => c == '/'

/-- Embeds `os.path.join(a, b)` on POSIX for two components: an absolute
second component replaces the first, otherwise the two are joined with a
single separator. -/
def osJoin (a b : String) : String :=
  if startsWithSlash b then b
  else if endsWithSlash a then a ++ b
  else a ++ "/" ++ b

/-- Splits a character list on the path separator. -/
def splitSlashAux : List Char → List Char → List (List Char)
  | [], acc => [acc.reverse]
  | c :: cs, acc =>
    if c == '/' then acc.reverse :: splitSlashAux cs []
    else splitSlashAux cs (c :: acc)

/-- Embeds `os.path.dirname` for the relative paths the scripts build: the
path up to (excluding) the last separator, `""` when there is none. -/
def dirname (p : String) : String :=
  ⟨List.intercalate ['/'] ((splitSlashAux p.data []).dropLast)⟩

/-- Value of a decimal digit character, by its distance from the code
point of the zero digit. -/
def digitVal (c : Char) : Option ℕ :=
  if 48 ≤ c.toNat ∧ c.toNat ≤ 57 then some (c.toNat - 48) else none

/-- Reads a decimal numeral from a character list. -/
def parseNatAux : List Char → ℕ → Option ℕ
  | [], acc => some acc
  | c :: cs, acc =>
    match digitVal c with
    | some d => parseNatAux cs (acc * 10 + d)
    | none => none

/-- Reads a nonempty decimal numeral. -/
def parseNat : List Char → Option ℕ
  | [] => none
  | c :: cs => parseNatAux (c :: cs) 0

/-- Splits a character list on the blank separating transform entries. -/
def splitSpaceAux : List Char → List Char → List (List Char)
  | [], acc => [acc.reverse]
  | c :: cs, acc =>
    if c == ' ' then acc.reverse :: splitSpaceAux cs []
    else splitSpaceAux cs (c :: acc)

/-- Parses every blank-separated token of a list as a numeral. -/
def parseNumsAux : List (List Char) → Option (List ℕ)
  | [] => some []
  | t :: ts =>
    match parseNat t, parseNumsAux ts with
    | some n, some ns => some (n :: ns)
    | _, _ => none

/-- Parses a blank-separated transform attribute value into its numeric
entries. -/
def parseNums (s : String) : Option (List ℕ) :=
  parseNumsAux (splitSpaceAux s.data [])

/-- Follows the spec's words (§4.4): a 12-parameter affine transform lists
the 3×3 rotation/scale matrix in row order followed by the 3 translation
entries, so the identity transform is the identity matrix rows followed by
a zero translation. -/
def identity12 : List ℕ := [1, 0, 0, 0, 1, 0, 0, 0, 1, 0, 0, 0]

/-- Embeds the `<mesh>` element built by `_add_mesh_to_object`: a
`<vertices>` list with one `<vertex>` per emitted vertex and a
`<triangles>` list with one `<triangle>` per emitted index triple, both in
emission order, coordinates and indices rendered with Python `str`. -/
def meshElem (m : Mesh) : Xml :=
  Xml.elem "mesh" [] none
    [ Xml.elem "vertices" [] none
        ((addMeshToObject m).1.map fun v =>
          Xml.elem "vertex"
            [("x", toString v.x), ("y", toString v.y), ("z", toString v.z)]
            none []),
      Xml.elem "triangles" [] none
        ((addMeshToObject m).2.map fun t =>
          Xml.elem "triangle"
            [("v1", toString t.v1), ("v2", toString t.v2), ("v3", toString t.v3)]
            none []) ]

namespace SpecRegionAssigner

/-- Modelled from the spec: a declared paint band of the by-height-band
Region Assigner (§4.3) — a half-open Z interval `[low, high)` tagged with a
target extruder index.  No band-declaration input or overlap validation
exists under `src/`; the scripts hard-code their two bands. -/
structure Band where
  low : ℚ
  high : ℚ
  extruder : ℕ
deriving DecidableEq, Repr

/-- Modelled from the spec: two half-open intervals `[low, high)` overlap
iff some coordinate lies in both. -/
def bandsOverlap (u v : Band) : Bool :=
  decide (max u.low v.low < min u.high v.high)

/-- Whether a declared band list is pairwise interval-disjoint. -/
def pairwiseDisjoint : List Band → Bool
  | [] => true
  | b :: bs => (bs.all fun c => !bandsOverlap b c) && pairwiseDisjoint bs

/-- Modelled from the spec: the input-validation error of the by-height-band
Region Assigner (§4.3, §7). -/
inductive RegionError where
  | regionOverlap
deriving DecidableEq, Repr

/-- Modelled from the spec: the by-height-band Region Assigner validates the
declared bands and either returns one part assignment (part id, extruder)
per band or fails with `RegionOverlapError`, in which case the pipeline
stops and no archive is produced. -/
def assignByHeightBand (bands : List Band) :
    Except RegionError (List (ℕ × ℕ)) :=
  if pairwiseDisjoint bands then
    .ok (bands.enum.map fun p => (p.1 + 1, p.2.extruder))
  else
    .error .regionOverlap

/-- Modelled from the spec: packaging in by-height-band mode only proceeds
to produce an output archive when region assignment succeeded. -/
def packageWithBands (bands : List Band) : Option (List (ℕ × ℕ)) :=
  match assignByHeightBand bands with
  | .ok ps => some ps
  | .error _ => none

end SpecRegionAssigner

namespace GenerateBambu3mf

/-- Embeds `_create_model_file` (`generate_bambu_3mf.py` lines 166-235):
the `3D/3dmodel.model` document with the base mesh as object 1, the text
mesh as object 2, a composite object 3 referencing both, and a build
section with a single item.  `today` stands for
`datetime.now().strftime(...)`, evaluated twice on the same day. -/
def createModelFile (base text : Mesh) (name today : String) : Xml :=
  Xml.elem "model"
    [ ("unit", "millimeter"), ("xml:lang", "en-US"),
      ("xmlns", "http://schemas.microsoft.com/3dmanufacturing/core/2015/02"),
      ("xmlns:BambuStudio", "http://schemas.bambulab.com/package/2021") ]
    none
    ([ ("Application", "BambuStudio-02.04.00.70"),
       ("BambuStudio:3mfVersion", "1"),
       ("CreationDate", today),
       ("ModificationDate", today),
       ("Title", name) ].map (fun kv =>
         Xml.elem "metadata" [("name", kv.1)] (some kv.2) []) ++
     [ Xml.elem "resources" [] none
         [ Xml.elem "object" [("id", "1"), ("type", "model")] none
             [meshElem base],
           Xml.elem "object" [("id", "2"), ("type", "model")] none
             [meshElem text],
           Xml.elem "object" [("id", "3"), ("type", "model")] none
             [ Xml.elem "components" [] none
                 [ Xml.elem "component"
                     [("objectid", "1"),
                      ("transform", "1 0 0 0 1 0 0 0 1 0 0 0")] none [],
                   Xml.elem "component"
                     [("objectid", "2"),
                      ("transform", "1 0 0 0 1 0 0 0 1 0 0 0")] none [] ] ] ],
       Xml.elem "build" [] none
         [ Xml.elem "item"
             [("objectid", "3"),
              ("transform", "1 0 0 0 0 1 0 0 0 0 1 0"),
              ("printable", "1")] none [] ] ])

/-- Embeds `_create_model_settings` (`generate_bambu_3mf.py` lines 258-365)
with the constructor defaults `font_size = 5` and `text_height = 0.6`: the
`Metadata/model_settings.config` document carrying the per-part extruder
assignment. -/
def createModelSettings (name : String) : Xml :=
  Xml.elem "config" [] none
    [ Xml.elem "object" [("id", "3")] none
        [ Xml.elem "metadata"
            [("key", "name"), ("value", name ++ ".3mf")] none [],
          Xml.elem "metadata"
            [("key", "extruder"), ("value", "1")] none [],
          Xml.elem "part" [("id", "1"), ("subtype", "normal_part")] none
            [ Xml.elem "metadata"
                [("key", "name"), ("value", name ++ " - Base")] none [],
              Xml.elem "metadata"
                [("key", "extruder"), ("value", "1")] none [],
              Xml.elem "metadata"
                [("key", "matrix"),
                 ("value", "1 0 0 0 0 1 0 0 0 0 1 0 0 0 0 1")] none [],
              Xml.elem "metadata"
                [("key", "source_object_id"), ("value", "1")] none [] ],
          Xml.elem "part" [("id", "2"), ("subtype", "normal_part")] none
            [ Xml.elem "metadata"
                [("key", "name"), ("value", name ++ " - Text")] none [],
              Xml.elem "metadata"
                [("key", "extruder"), ("value", "2")] none [],
              Xml.elem "metadata"
                [("key", "matrix"),
                 ("value", "1 0 0 0 0 1 0 0 0 0 1 0 0 0 0 1")] none [],
              Xml.elem "metadata"
                [("key", "source_object_id"), ("value", "2")] none [],
              Xml.elem "text_info"
                [("text", name), ("font_name", "Arial"),
                 ("style_name", "Bold"), ("boldness", "109"),
                 ("font_size", "5"), ("thickness", "0.6"),
                 ("bold", "1"), ("italic", "0")] none [] ] ],
      Xml.elem "plate" [] none
        [ Xml.elem "metadata"
            [("key", "plater_id"), ("value", "1")] none [],
          Xml.elem "model_instance" [] none
            [ Xml.elem "metadata"
                [("key", "object_id"), ("value", "3")] none [],
              Xml.elem "metadata"
                [("key", "instance_id"), ("value", "0")] none [] ] ],
      Xml.elem "assemble" [] none
        [ Xml.elem "assemble_item"
            [("object_id", "3"), ("instance_id", "0"),
             ("transform", "1 0 0 0 1 0 0 0 1 0 0 0"),
             ("offset", "0 0 0")] none [] ] ]

/-- Embeds `_create_content_types` (`generate_bambu_3mf.py` lines 367-388):
the `[Content_Types].xml` document. -/
def createContentTypes : Xml :=
  Xml.elem "Types"
    [("xmlns", "http://schemas.openxmlformats.org/package/2006/content-types")]
    none
    [ Xml.elem "Default"
        [("Extension", "rels"),
         ("ContentType",
          "application/vnd.openxmlformats-package.relationships+xml")]
        none [],
      Xml.elem "Default"
        [("Extension", "model"),
         ("ContentType",
          "application/vnd.ms-package.3dmanufacturing-3dmodel+xml")]
        none [] ]

/-- Embeds `_create_rels` (`generate_bambu_3mf.py` lines 390-411): the
`_rels/.rels` document. -/
def createRels : Xml :=
  Xml.elem "Relationships"
    [("xmlns", "http://schemas.openxmlformats.org/package/2006/relationships")]
    none
    [ Xml.elem "Relationship"
        [("Target", "/3D/3dmodel.model"), ("Id", "rel0"),
         ("Type", "http://schemas.microsoft.com/3dmanufacturing/2013/01/3dmodel")]
        none [] ]

/-- The archive entries written by `create_bambu_3mf` (lines 148-153): the
zip walks the staging tree, so each staged document lands at its staging
path relative to the staging root.  Listed in staging-creation order; zip and
filesystem walk order do not change which entries exist. -/
def archiveFiles (base text : Mesh) (name today : String) :
    List (String × Xml) :=
  [ ("3D/3dmodel.model", createModelFile base text name today),
    ("Metadata/model_settings.config", createModelSettings name),
    ("[Content_Types].xml", createContentTypes),
    ("_rels/.rels", createRels) ]

/-- The successive operations of `create_bambu_3mf` (lines 118-164) that can
raise: loading the two STL meshes, generating the four staged documents
(including creating the staging directory), writing the zip at the
destination path, and removing the staging directory. -/
inductive Stage where
  | loadMeshes
  | genDocs
  | zipWrite
  | cleanup
deriving DecidableEq, Repr

/-- The observable filesystem facts `create_bambu_3mf` manipulates: whether
the staging directory `temp_generation/3mf_structure` exists, and whether a
partial or a complete archive sits at the destination path. -/
structure FS where
  stagingDir : Bool
  destPartial : Bool
  destComplete : Bool
deriving DecidableEq, Repr

/-- Embeds the control flow of `create_bambu_3mf` (lines 118-164).
`failAt` names the first operation that raises, if any; the `except`
handler (lines 160-164) only prints and returns `False`, performing no
cleanup.  The staging directory is created before document generation;
`zipfile.ZipFile(output_3mf, 'w')` creates (or truncates) the destination
file directly, so an exception while writing entries leaves a partial file
there; `shutil.rmtree` of the staging directory runs only after a fully
successful zip write. -/
def createBambu3mfRun (failAt : Option Stage) (fs : FS) : Bool × FS :=
  if failAt = some Stage.loadMeshes then (false, fs)
  else
    let fs1 : FS := { fs with stagingDir := true }
    if failAt = some Stage.genDocs then (false, fs1)
    else if failAt = some Stage.zipWrite then
      (false, { fs1 with destPartial := true, destComplete := false })
    else
      let fs2 : FS := { fs1 with destPartial := false, destComplete := true }
      if failAt = some Stage.cleanup then (false, fs2)
      else (true, { fs2 with stagingDir := false })

/-- The intermediate and final artifacts of one `generate_nameplate` run
(`generate_bambu_3mf.py` lines 413-458): the two generated `.scad` files
and the two rendered `.stl` files under `output/temp_generation`, the
archive at the destination, and whether the Mesh Ingestor
(`stl_mesh.Mesh.from_file`, the first step of `create_bambu_3mf`) was
reached. -/
structure RunFS where
  scadBase : Bool
  scadText : Bool
  stlBase : Bool
  stlText : Bool
  archive : Bool
  ingestorReached : Bool
deriving DecidableEq, Repr

/-- Embeds the control flow of `generate_nameplate` (lines 413-458):
both `.scad` files are written first; `render_stl` is called for the base
and, only on success, for the text; a render failure returns `False`
immediately, deleting nothing; only when both renders succeed does
`create_bambu_3mf` run, whose first statement ingests the meshes.  The two
flags state whether the respective `openscad` invocation exits zero. -/
def generateNameplateRun (renderBaseOk renderTextOk : Bool) : Bool × RunFS :=
  let fs0 : RunFS :=
    { scadBase := true, scadText := true, stlBase := false, stlText := false,
      archive := false, ingestorReached := false }
  if !renderBaseOk then (false, fs0)
  else
    let fs1 : RunFS := { fs0 with stlBase := true }
    if !renderTextOk then (false, fs1)
    else
      (true, { fs1 with stlText := true, ingestorReached := true,
                        archive := true })

/-- The constructor field `self.output_dir` (line 31). -/
def outputDir : String := "output"

/-- The constructor field `self.temp_dir` (line 32). -/
def tempDir : String := osJoin outputDir "temp_generation"

/-- Embeds `safe_name = name.replace(" ", "_").replace("/", "_")`
(line 415). -/
def safeName (name : String) : String :=
  pyReplaceChar (pyReplaceChar name ' ' '_') '/' '_'

/-- The file paths computed at the start of `generate_nameplate`
(lines 422-426). -/
structure NameplatePaths where
  scadBase : String
  scadText : String
  stlBase : String
  stlText : String
  output3mf : String
deriving DecidableEq, Repr

/-- Embeds lines 422-426 of `generate_bambu_3mf.py`: all intermediate
geometry files are named after `safe_name`, while the destination archive
path joins the output directory with the raw `name`. -/
def nameplatePaths (name : String) : NameplatePaths :=
  { scadBase := osJoin tempDir (safeName name ++ "_base.scad"),
    scadText := osJoin tempDir (safeName name ++ "_text.scad"),
    stlBase := osJoin tempDir (safeName name ++ "_base.stl"),
    stlText := osJoin tempDir (safeName name ++ "_text.stl"),
    output3mf := osJoin outputDir (name ++ ".3mf") }

end GenerateBambu3mf

namespace GenerateNameplates

/-- The constructor default `self.base_thickness = 2.0` (line 21). -/
def base_thickness : ℚ := 2

/-- The constructor default `self.text_height = 1.2` (line 22). -/
def text_height : ℚ := 6 / 5

/-- Embeds `_create_model_file` (`generate_nameplates.py` lines 169-211):
the single merged mesh as object 1 and a build section with a single item
carrying no transform attribute. -/
def createModelFile (m : Mesh) (name today : String) : Xml :=
  Xml.elem "model"
    [ ("unit", "millimeter"), ("xml:lang", "en-US"),
      ("xmlns", "http://schemas.microsoft.com/3dmanufacturing/core/2015/02"),
      ("xmlns:BambuStudio", "http://schemas.bambulab.com/package/2021") ]
    none
    ([ ("Application", "BambuStudio-02.04.00.70"),
       ("BambuStudio:3mfVersion", "1"),
       ("CreationDate", today),
       ("ModificationDate", today),
       ("Title", name) ].map (fun kv =>
         Xml.elem "metadata" [("name", kv.1)] (some kv.2) []) ++
     [ Xml.elem "resources" [] none
         [ Xml.elem "object" [("id", "1"), ("type", "model")] none
             [meshElem m] ],
       Xml.elem "build" [] none
         [ Xml.elem "item" [("objectid", "1"), ("printable", "1")] none [] ] ])

/-- The two paint bands `_create_model_settings`
(`generate_nameplates.py` lines 262-291) declares, read off the
`height_range_low`/`height_range_high` metadata it emits: the base region
`[0, base_thickness)` on extruder 1 and the text region
`[base_thickness, base_thickness + text_height)` on extruder 2. -/
def paintBands : List SpecRegionAssigner.Band :=
  [ ⟨0, base_thickness, 1⟩,
    ⟨base_thickness, base_thickness + text_height, 2⟩ ]

end GenerateNameplates

namespace GenerateAllNameplates

/-- The constructor default `self.base_thickness = 2.5` (line 16). -/
def base_thickness : ℚ := 5 / 2

/-- Embeds the text-vertex emission of `create_3mf_with_separate_objects`
(`generate_all_nameplates.py` lines 232-245): identical to `addMeshAux`
except that each vertex's `z` coordinate is written as
`vertex[2] + self.base_thickness`. -/
def addMeshAuxZ (zoff : ℚ) : ℕ → Mesh → List Vertex × List TriIdx
  | _, [] => ([], [])
  | i, t :: rest =>
    let r := addMeshAuxZ zoff (i + 3) rest
    (⟨t.a.x, t.a.y, t.a.z + zoff⟩ :: ⟨t.b.x, t.b.y, t.b.z + zoff⟩ ::
       ⟨t.c.x, t.c.y, t.c.z + zoff⟩ :: r.1,
     ⟨i, i + 1, i + 2⟩ :: r.2)

/-- The `<mesh>` element of the text object, whose vertices carry the
Z offset and whose `vertex_idx` is reset to 0 before the loop (line 232). -/
def meshElemZ (zoff : ℚ) (m : Mesh) : Xml :=
  Xml.elem "mesh" [] none
    [ Xml.elem "vertices" [] none
        ((addMeshAuxZ zoff 0 m).1.map fun v =>
          Xml.elem "vertex"
            [("x", toString v.x), ("y", toString v.y), ("z", toString v.z)]
            none []),
      Xml.elem "triangles" [] none
        ((addMeshAuxZ zoff 0 m).2.map fun t =>
          Xml.elem "triangle"
            [("v1", toString t.v1), ("v2", toString t.v2), ("v3", toString t.v3)]
            none []) ]

/-- Embeds the model document built inline by
`create_3mf_with_separate_objects` (`generate_all_nameplates.py` lines
185-255): base and text as two mesh objects whose display names are `name`
attributes, and a build section holding one item per object, neither
carrying a `printable` attribute. -/
def create3mfModel (base text : Mesh) (name : String) : Xml :=
  Xml.elem "model"
    [ ("unit", "millimeter"), ("xml:lang", "en-US"),
      ("xmlns", "http://schemas.microsoft.com/3dmanufacturing/core/2015/02") ]
    none
    [ Xml.elem "resources" [] none
        [ Xml.elem "object"
            [("id", "1"), ("type", "model"), ("name", name ++ " - Base")]
            none [meshElem base],
          Xml.elem "object"
            [("id", "2"), ("type", "model"), ("name", name ++ " - Text")]
            none [meshElemZ base_thickness text] ],
      Xml.elem "build" [] none
        [ Xml.elem "item" [("objectid", "1")] none [],
          Xml.elem "item" [("objectid", "2")] none [] ] ]

end GenerateAllNameplates

/-- A concrete vertex used by the witness statements. -/
def demoVertex : Vertex := ⟨0, 0, 0⟩

/-- A concrete triangle used by the witness statements. -/
def demoTri : Tri := ⟨demoVertex, ⟨1, 0, 0⟩, ⟨0, 1, 0⟩⟩

/-- A concrete two-triangle mesh used by the witness statements. -/
def demoMesh : Mesh := [demoTri, ⟨⟨1, 0, 0⟩, ⟨1, 1, 0⟩, ⟨0, 1, 0⟩⟩]

example : (addMeshToObject demoMesh).2 = [⟨0, 1, 2⟩, ⟨3, 4, 5⟩] := by decide

example : (addMeshToObject demoMesh).1.length = 6 := by decide

example :
    extractMesh (addMeshToObject demoMesh).1 (addMeshToObject demoMesh).2
      = some demoMesh := by decide

example :
    GenerateBambu3mf.safeName "Hadi Jaffri" = "Hadi_Jaffri" := by decide

example :
    (GenerateBambu3mf.nameplatePaths "a/b").output3mf = "output/a/b.3mf" := by
  decide

example : dirname "output/a/b.3mf" = "output/a" := by decide

example : parseNums "1 0 0 0 0 1 0 0 0 0 1 0"
    = some [1, 0, 0, 0, 0, 1, 0, 0, 0, 0, 1, 0] := by decide

example (base text : Mesh) (name today : String) :
    (GenerateBambu3mf.createModelFile base text name today).buildItems.map
        (Xml.attr "objectid") = [some "3"] := rfl

example (base text : Mesh) (name today : String) :
    Xml.buildResolves
        (GenerateBambu3mf.createModelFile base text name today) = true := rfl

example :
    SpecRegionAssigner.bandsOverlap ⟨0, 2, 1⟩ ⟨1, 3, 2⟩ = true := by decide

/-- Length of the emitted vertex list: three vertices per input triangle. -/
theorem addMeshAux_fst_length (m : Mesh) :
    ∀ i, (addMeshAux i m).1.length = 3 * m.length := by
  induction m with
  | nil => intro i; simp [addMeshAux]
  | cons t rest ih =>
    intro i
    simp only [addMeshAux, List.length_cons, ih]
    omega

/-- Length of the emitted triangle list: one index triple per input
triangle. -/
theorem addMeshAux_snd_length (m : Mesh) :
    ∀ i, (addMeshAux i m).2.length = m.length := by
  induction m with
  | nil => intro i; simp [addMeshAux]
  | cons t rest ih =>
    intro i
    simp only [addMeshAux, List.length_cons, ih]

/-- Shape of every emitted index triple: consecutive indices starting at or
after the running base, bounded by the base plus three per remaining
triangle. -/
theorem addMeshAux_mem (m : Mesh) :
    ∀ i, ∀ t ∈ (addMeshAux i m).2,
      i ≤ t.v1 ∧ t.v2 = t.v1 + 1 ∧ t.v3 = t.v1 + 2 ∧
        t.v3 < i + 3 * m.length := by
  induction m with
  | nil => intro i t ht; simp [addMeshAux] at ht
  | cons u rest ih =>
    intro i t ht
    simp only [addMeshAux, List.mem_cons] at ht
    rcases ht with h | h
    · subst h
      refine ⟨Nat.le_refl i, rfl, rfl, ?_⟩
      simp only [List.length_cons]
      omega
    · obtain ⟨h1, h2, h3, h4⟩ := ih (i + 3) t h
      refine ⟨by omega, h2, h3, ?_⟩
      simp only [List.length_cons]
      omega

/-- The Z-offset emission loop of `generate_all_nameplates.py` produces
exactly the same triangle index triples as the unoffset loop. -/
theorem addMeshAuxZ_snd (zoff : ℚ) (m : Mesh) :
    ∀ i, (GenerateAllNameplates.addMeshAuxZ zoff i m).2 = (addMeshAux i m).2 := by
  induction m with
  | nil => intro i; simp [GenerateAllNameplates.addMeshAuxZ, addMeshAux]
  | cons t rest ih =>
    intro i
    simp only [GenerateAllNameplates.addMeshAuxZ, addMeshAux, ih]

/-- Extraction succeeds and returns the source mesh when the vertex list is
read behind an arbitrary prefix matching the starting index. -/
theorem extract_append (m : Mesh) :
    ∀ pre : List Vertex,
      extractMesh (pre ++ (addMeshAux pre.length m).1)
        (addMeshAux pre.length m).2 = some m := by
  induction m with
  | nil => intro pre; simp [addMeshAux, extractMesh]
  | cons t rest ih =>
    intro pre
    have hlen : (pre ++ [t.a, t.b, t.c]).length = pre.length + 3 := by simp
    have hrest := ih (pre ++ [t.a, t.b, t.c])
    rw [hlen] at hrest
    rw [List.append_assoc] at hrest
    simp only [List.cons_append, List.nil_append] at hrest
    have hget1 :
        (pre ++ t.a :: t.b :: t.c :: (addMeshAux (pre.length + 3) rest).1)[pre.length]?
          = some t.a := by
      rw [List.getElem?_append_right (Nat.le_refl _)]
      simp
    have hget2 :
        (pre ++ t.a :: t.b :: t.c :: (addMeshAux (pre.length + 3) rest).1)[pre.length + 1]?
          = some t.b := by
      rw [List.getElem?_append_right (by omega)]
      have : pre.length + 1 - pre.length = 1 := by omega
      rw [this]
      simp
    have hget3 :
        (pre ++ t.a :: t.b :: t.c :: (addMeshAux (pre.length + 3) rest).1)[pre.length + 2]?
          = some t.c := by
      rw [List.getElem?_append_right (by omega)]
      have : pre.length + 2 - pre.length = 2 := by omega
      rw [this]
      simp
    simp only [addMeshAux, extractMesh, extractTriangle, hget1, hget2, hget3,
      Option.pure_def, Option.bind_eq_bind, Option.some_bind, hrest]

/-- C2: for every object with a mesh, the emitted vertex count is three
times the emitted triangle count, every triangle's three vertex index
references satisfy `0 <= index < 3 * triangleCount` for that object, the
indices are zero-based (the first emitted triangle is `(0, 1, 2)`), and the
index base resets at the start of each object: `addMeshToObject` always
starts its loop at 0, and the Z-offset copy of the loop in
`generate_all_nameplates.py` emits the same object-local triples. -/
theorem claim_C2_object_local_indexing (m : Mesh) :
    (addMeshToObject m).1.length = 3 * (addMeshToObject m).2.length ∧
    (∀ t ∈ (addMeshToObject m).2,
       t.v1 < 3 * (addMeshToObject m).2.length ∧
       t.v2 < 3 * (addMeshToObject m).2.length ∧
       t.v3 < 3 * (addMeshToObject m).2.length) ∧
    (m ≠ [] → (addMeshToObject m).2.head? = some ⟨0, 1, 2⟩) ∧
    (∀ zoff, (GenerateAllNameplates.addMeshAuxZ zoff 0 m).2
        = (addMeshToObject m).2) := by
  refine ⟨?_, ?_, ?_, ?_⟩
  · rw [addMeshToObject, addMeshAux_snd_length, addMeshAux_fst_length]
  · intro t ht
    rw [addMeshToObject, addMeshAux_snd_length]
    obtain ⟨h1, h2, h3, h4⟩ := addMeshAux_mem m 0 t ht
    omega
  · intro hm
    match m with
    | [] => exact absurd rfl hm
    | u :: rest => rfl
  · intro zoff
    exact addMeshAuxZ_snd zoff m 0

/-- C2 witness: on the concrete two-triangle `demoMesh`, the second emitted
triangle is `(3, 4, 5)`, its indices are below `3 * 2`, and the first
emitted triangle is `(0, 1, 2)`. -/
theorem claim_C2_witness :
    (⟨3, 4, 5⟩ : TriIdx) ∈ (addMeshToObject demoMesh).2 ∧
    ((3 : ℕ) < 3 * (addMeshToObject demoMesh).2.length ∧
     (4 : ℕ) < 3 * (addMeshToObject demoMesh).2.length ∧
     (5 : ℕ) < 3 * (addMeshToObject demoMesh).2.length) ∧
    (addMeshToObject demoMesh).2.head? = some ⟨0, 1, 2⟩ :=
  ⟨by decide,
   (claim_C2_object_local_indexing demoMesh).2.1 ⟨3, 4, 5⟩ (by decide),
   (claim_C2_object_local_indexing demoMesh).2.2.1 (by decide)⟩

/-- C4: packaging a mesh and re-extracting the geometry from the emitted
vertex and triangle lists yields exactly the input mesh: every vertex
coordinate is recovered unchanged (hence within the decimal-formatting
tolerance) and every triangle's vertex references resolve, in order, to the
same three vertices as in the source triangle, so winding order is
preserved. -/
theorem claim_C4_roundtrip (m : Mesh) :
    extractMesh (addMeshToObject m).1 (addMeshToObject m).2 = some m := by
  have h := extract_append m []
  simpa using h

/-- C1 counterexample: a failure while the zip entries are being written
(for instance an IO error mid-write) returns failure yet leaves a partial
file at the destination path and leaves the staging directory in place, so
the claimed temporary-location-plus-atomic-rename discipline with full
cleanup does not hold for `create_bambu_3mf`. -/
theorem claim_C1_counterexample :
    (GenerateBambu3mf.createBambu3mfRun (some GenerateBambu3mf.Stage.zipWrite)
        ⟨false, false, false⟩).1 = false ∧
    (GenerateBambu3mf.createBambu3mfRun (some GenerateBambu3mf.Stage.zipWrite)
        ⟨false, false, false⟩).2.destPartial = true ∧
    (GenerateBambu3mf.createBambu3mfRun (some GenerateBambu3mf.Stage.zipWrite)
        ⟨false, false, false⟩).2.stagingDir = true := by
  decide

/-- C1 (amended): `create_bambu_3mf` writes the zip directly at the
destination path with no temporary file and no atomic rename.  Starting
from a clean filesystem: a successful run leaves a complete archive and
removes the staging directory; a failure while loading the meshes touches
nothing; a failure during document generation leaves no file at the
destination but leaves the staging directory; a failure while writing the
zip leaves a partial file at the destination and the staging directory; a
failure during final cleanup leaves the completed archive and the staging
directory.  No failure path removes the staging directory or the
destination file. -/
theorem claim_C1_amended :
    GenerateBambu3mf.createBambu3mfRun none ⟨false, false, false⟩
        = (true, ⟨false, false, true⟩) ∧
    GenerateBambu3mf.createBambu3mfRun (some GenerateBambu3mf.Stage.loadMeshes)
        ⟨false, false, false⟩ = (false, ⟨false, false, false⟩) ∧
    GenerateBambu3mf.createBambu3mfRun (some GenerateBambu3mf.Stage.genDocs)
        ⟨false, false, false⟩ = (false, ⟨true, false, false⟩) ∧
    GenerateBambu3mf.createBambu3mfRun (some GenerateBambu3mf.Stage.zipWrite)
        ⟨false, false, false⟩ = (false, ⟨true, true, false⟩) ∧
    GenerateBambu3mf.createBambu3mfRun (some GenerateBambu3mf.Stage.cleanup)
        ⟨false, false, false⟩ = (false, ⟨true, false, true⟩) := by
  decide

/-- C7 counterexample: when the base render exits nonzero, the Mesh
Ingestor is indeed never reached and no archive is produced, but the two
generated `.scad` files remain on disk in the temp directory, so the
claimed "no temporary files remain" does not hold for
`generate_nameplate`. -/
theorem claim_C7_counterexample :
    (GenerateBambu3mf.generateNameplateRun false true).1 = false ∧
    (GenerateBambu3mf.generateNameplateRun false true).2.ingestorReached = false ∧
    (GenerateBambu3mf.generateNameplateRun false true).2.archive = false ∧
    (GenerateBambu3mf.generateNameplateRun false true).2.scadBase = true ∧
    (GenerateBambu3mf.generateNameplateRun false true).2.scadText = true := by
  decide

/-- C7 (amended): whenever either renderer invocation exits nonzero,
`generate_nameplate` reports failure, the Mesh Ingestor is never reached
and no archive file is produced for that nameplate — but the generated
`.scad` files (and, when the base render succeeded and the text render
failed, the rendered base `.stl`) remain on disk in the temp directory. -/
theorem claim_C7_amended (rb rt : Bool) (h : rb = false ∨ rt = false) :
    (GenerateBambu3mf.generateNameplateRun rb rt).1 = false ∧
    (GenerateBambu3mf.generateNameplateRun rb rt).2.ingestorReached = false ∧
    (GenerateBambu3mf.generateNameplateRun rb rt).2.archive = false ∧
    (GenerateBambu3mf.generateNameplateRun rb rt).2.scadBase = true ∧
    (GenerateBambu3mf.generateNameplateRun rb rt).2.scadText = true := by
  rcases h with h | h
  · subst h; cases rt <;> decide
  · subst h; cases rb <;> decide

/-- C7 witness: the amended statement applied at the concrete run in which
the base render fails and the text render would succeed. -/
theorem claim_C7_witness :
    ((false = false ∨ true = false) ∧
     (GenerateBambu3mf.generateNameplateRun false true).2.ingestorReached = false ∧
     (GenerateBambu3mf.generateNameplateRun false true).2.archive = false ∧
     (GenerateBambu3mf.generateNameplateRun false true).2.scadBase = true) :=
  ⟨Or.inl rfl,
   (claim_C7_amended false true (Or.inl rfl)).2.1,
   (claim_C7_amended false true (Or.inl rfl)).2.2.1,
   (claim_C7_amended false true (Or.inl rfl)).2.2.2.1⟩

/-- C3 counterexample: the model document of
`create_3mf_with_separate_objects` (`generate_all_nameplates.py` lines
247-249) contains two build entries, not exactly one, and neither carries a
`printable` marker, so the claim fails for that packaging run. -/
theorem claim_C3_counterexample :
    (GenerateAllNameplates.create3mfModel demoMesh demoMesh
        "Hadi Jaffri").buildItems.length = 2 ∧
    ∀ it ∈ (GenerateAllNameplates.create3mfModel demoMesh demoMesh
        "Hadi Jaffri").buildItems, it.attr "printable" = none := by
  constructor
  · rfl
  · decide

/-- C3 (amended): in `generate_bambu_3mf.py` exactly one build entry is
emitted, referencing the composite object 3 (which aggregates the two mesh
objects 1 and 2 as components) with `printable="1"`; in
`generate_nameplates.py` exactly one build entry is emitted, referencing
the sole mesh object 1 with `printable="1"`; in
`generate_all_nameplates.py` two build entries are emitted, one per mesh
object, with no `printable` marker.  In all three documents every build
entry's object id resolves to an object defined in the resources. -/
theorem claim_C3_amended (base text m : Mesh) (name today : String) :
    ((GenerateBambu3mf.createModelFile base text name today).buildItems.map
        (Xml.attr "objectid") = [some "3"] ∧
     (GenerateBambu3mf.createModelFile base text name today).buildItems.map
        (Xml.attr "printable") = [some "1"] ∧
     Xml.buildResolves (GenerateBambu3mf.createModelFile base text name today)
        = true ∧
     (GenerateBambu3mf.createModelFile base text name today).resourceObjects.map
        (fun o => (o.childrenTagged "components").map fun cs =>
          (cs.childrenTagged "component").map (Xml.attr "objectid"))
        = [[], [], [[some "1", some "2"]]]) ∧
    ((GenerateNameplates.createModelFile m name today).buildItems.map
        (Xml.attr "objectid") = [some "1"] ∧
     (GenerateNameplates.createModelFile m name today).buildItems.map
        (Xml.attr "printable") = [some "1"] ∧
     Xml.buildResolves (GenerateNameplates.createModelFile m name today)
        = true ∧
     (GenerateNameplates.createModelFile m name today).objectIds
        = [some "1"]) ∧
    ((GenerateAllNameplates.create3mfModel base text name).buildItems.map
        (Xml.attr "objectid") = [some "1", some "2"] ∧
     (GenerateAllNameplates.create3mfModel base text name).buildItems.map
        (Xml.attr "printable") = [none, none] ∧
     Xml.buildResolves (GenerateAllNameplates.create3mfModel base text name)
        = true) := by
  exact ⟨⟨rfl, rfl, rfl, rfl⟩, ⟨rfl, rfl, rfl, rfl⟩, rfl, rfl, rfl⟩

/-- C5: the archive produced by `create_bambu_3mf` contains, at the fixed
internal paths, the content-type table listing both the relationship and
the model content types, the relationships document whose single
relationship targets the model document, and the model document itself,
whose single build entry's object id resolves to an object defined in its
resources. -/
theorem claim_C5_min_conformance (base text : Mesh) (name today : String) :
    (("[Content_Types].xml", GenerateBambu3mf.createContentTypes)
        ∈ GenerateBambu3mf.archiveFiles base text name today) ∧
    GenerateBambu3mf.createContentTypes.declaresType "rels"
        "application/vnd.openxmlformats-package.relationships+xml" = true ∧
    GenerateBambu3mf.createContentTypes.declaresType "model"
        "application/vnd.ms-package.3dmanufacturing-3dmodel+xml" = true ∧
    (("_rels/.rels", GenerateBambu3mf.createRels)
        ∈ GenerateBambu3mf.archiveFiles base text name today) ∧
    (GenerateBambu3mf.createRels.childrenTagged "Relationship").map
        (Xml.attr "Target") = [some "/3D/3dmodel.model"] ∧
    (("3D/3dmodel.model", GenerateBambu3mf.createModelFile base text name today)
        ∈ GenerateBambu3mf.archiveFiles base text name today) ∧
    (GenerateBambu3mf.createModelFile base text name today).buildItems.length
        = 1 ∧
    Xml.buildResolves (GenerateBambu3mf.createModelFile base text name today)
        = true := by
  refine ⟨?_, by decide, by decide, ?_, by decide, ?_, rfl, rfl⟩
  · exact List.mem_cons_of_mem _ (List.mem_cons_of_mem _
      (List.mem_cons_self _ _))
  · exact List.mem_cons_of_mem _ (List.mem_cons_of_mem _
      (List.mem_cons_of_mem _ (List.mem_cons_self _ _)))
  · exact List.mem_cons_self _ _

/-- C8: in the model document of `generate_bambu_3mf.py`, both component
references of the composite object carry the 12-parameter identity
transform, but the single build item carries
`1 0 0 0 0 1 0 0 0 0 1 0` — the first twelve entries of a row-major 4×4
identity — which is not the 12-parameter identity transform, contradicting
the code's own comment calling it an identity transform matrix. -/
theorem claim_C8_build_transform (base text : Mesh) (name today : String) :
    ((((GenerateBambu3mf.createModelFile base text name today).resourceObjects.map
          (Xml.childrenTagged "components")).flatten.map
          (Xml.childrenTagged "component")).flatten.map
        (fun c => (c.attr "transform").bind parseNums)
      = [some identity12, some identity12]) ∧
    ((GenerateBambu3mf.createModelFile base text name today).buildItems.map
        (fun it => (it.attr "transform").bind parseNums)
      = [some [1, 0, 0, 0, 0, 1, 0, 0, 0, 0, 1, 0]]) ∧
    [1, 0, 0, 0, 0, 1, 0, 0, 0, 0, 1, 0] ≠ identity12 := by
  exact ⟨rfl, rfl, by decide⟩

/-- C9 counterexample: in the settings document for the name
"Hadi Jaffri", the part display name "Hadi Jaffri - Base" is inserted as
the `value` attribute of a metadata element whose text content is empty —
a human-readable string stored as an attribute value, not as element text
content, refuting the claim as stated. -/
theorem claim_C9_counterexample :
    ∃ o ∈ (GenerateBambu3mf.createModelSettings
        "Hadi Jaffri").childrenTagged "object",
      ∃ p ∈ o.childrenTagged "part",
        ∃ md ∈ p.childrenTagged "metadata",
          md.attr "value" = some "Hadi Jaffri - Base" ∧ md.txt = none := by
  decide

/-- C9 (amended): in the model document the metadata values — including the
Title carrying the nameplate name — are element text content; but in the
settings document the object name, the part display names and the raw text
string are emitted as attribute values (`value` on metadata elements,
`text` on the text_info element) with no element text content, and in
`generate_all_nameplates.py` the object display names are `name`
attributes on the object elements. -/
theorem claim_C9_amended (base text : Mesh) (name today : String) :
    ((GenerateBambu3mf.createModelFile base text name today).childrenTagged
        "metadata").map Xml.txt
      = [some "BambuStudio-02.04.00.70", some "1", some today, some today,
         some name] ∧
    ((GenerateBambu3mf.createModelSettings name).childrenTagged "object").map
        (fun o => (o.childrenTagged "metadata").map fun md =>
          (md.attr "key", md.attr "value", md.txt))
      = [[(some "name", some (name ++ ".3mf"), none),
          (some "extruder", some "1", none)]] ∧
    ((GenerateBambu3mf.createModelSettings name).childrenTagged "object").map
        (fun o => (o.childrenTagged "part").map fun p =>
          (p.childrenTagged "metadata").map fun md =>
            (md.attr "key", md.attr "value", md.txt))
      = [[[(some "name", some (name ++ " - Base"), none),
           (some "extruder", some "1", none),
           (some "matrix", some "1 0 0 0 0 1 0 0 0 0 1 0 0 0 0 1", none),
           (some "source_object_id", some "1", none)],
          [(some "name", some (name ++ " - Text"), none),
           (some "extruder", some "2", none),
           (some "matrix", some "1 0 0 0 0 1 0 0 0 0 1 0 0 0 0 1", none),
           (some "source_object_id", some "2", none)]]] ∧
    ((GenerateBambu3mf.createModelSettings name).childrenTagged "object").map
        (fun o => (o.childrenTagged "part").map fun p =>
          (p.childrenTagged "text_info").map fun ti =>
            (ti.attr "text", ti.txt))
      = [[[], [(some name, none)]]] ∧
    (GenerateAllNameplates.create3mfModel base text name).resourceObjects.map
        (Xml.attr "name")
      = [some (name ++ " - Base"), some (name ++ " - Text")] := by
  exact ⟨rfl, rfl, rfl, rfl, rfl⟩

/-- When a declared band list passes the pairwise-disjointness check, no
two bands at distinct positions overlap. -/
theorem pairwiseDisjoint_get (l : List SpecRegionAssigner.Band)
    (hpd : SpecRegionAssigner.pairwiseDisjoint l = true) :
    ∀ i j (hij : i < j) (hj : j < l.length),
      SpecRegionAssigner.bandsOverlap (l.get ⟨i, hij.trans hj⟩)
        (l.get ⟨j, hj⟩) = false := by
  induction l with
  | nil =>
    intro i j hij hj
    exact absurd hj (by simp)
  | cons b bs ih =>
    intro i j hij hj
    simp only [SpecRegionAssigner.pairwiseDisjoint, Bool.and_eq_true,
      List.all_eq_true] at hpd
    obtain ⟨hall, hrest⟩ := hpd
    match i, j, hij, hj with
    | 0, j' + 1, hij, hj =>
      have hj' : j' < bs.length := by simpa using hj
      have hmem : bs.get ⟨j', hj'⟩ ∈ bs := List.get_mem bs j' hj'
      have := hall _ hmem
      simpa using this
    | i' + 1, j' + 1, hij, hj =>
      exact ih hrest i' j' (by omega) (by simpa using hj)

/-- C6: whenever two declared Z bands at distinct positions overlap as
half-open intervals, the by-height-band Region Assigner fails with the
region-overlap error and the packaging pipeline produces no output. -/
theorem claim_C6_region_overlap (bands : List SpecRegionAssigner.Band)
    (i j : ℕ) (hij : i < j) (hj : j < bands.length)
    (hov : SpecRegionAssigner.bandsOverlap (bands.get ⟨i, hij.trans hj⟩)
        (bands.get ⟨j, hj⟩) = true) :
    SpecRegionAssigner.assignByHeightBand bands
        = .error .regionOverlap ∧
    SpecRegionAssigner.packageWithBands bands = none := by
  have hpd : SpecRegionAssigner.pairwiseDisjoint bands = false := by
    cases h : SpecRegionAssigner.pairwiseDisjoint bands
    · rfl
    · exact absurd ((pairwiseDisjoint_get bands h i j hij hj).symm.trans hov)
        (by decide)
  constructor
  · simp [SpecRegionAssigner.assignByHeightBand, hpd]
  · simp [SpecRegionAssigner.packageWithBands,
      SpecRegionAssigner.assignByHeightBand, hpd]

/-- C6 witness: the spec's own example — overlapping declared bands
`[0,2)` and `[1,3)` — is rejected with the region-overlap error and yields
no output. -/
theorem claim_C6_witness :
    SpecRegionAssigner.bandsOverlap
        (([⟨0, 2, 1⟩, ⟨1, 3, 2⟩] : List SpecRegionAssigner.Band).get
          ⟨0, by decide⟩)
        (([⟨0, 2, 1⟩, ⟨1, 3, 2⟩] : List SpecRegionAssigner.Band).get
          ⟨1, by decide⟩) = true ∧
    SpecRegionAssigner.assignByHeightBand
        ([⟨0, 2, 1⟩, ⟨1, 3, 2⟩] : List SpecRegionAssigner.Band)
      = .error .regionOverlap ∧
    SpecRegionAssigner.packageWithBands
        ([⟨0, 2, 1⟩, ⟨1, 3, 2⟩] : List SpecRegionAssigner.Band) = none :=
  ⟨by decide,
   (claim_C6_region_overlap [⟨0, 2, 1⟩, ⟨1, 3, 2⟩] 0 1 (by decide) (by decide)
     (by decide)).1,
   (claim_C6_region_overlap [⟨0, 2, 1⟩, ⟨1, 3, 2⟩] 0 1 (by decide) (by decide)
     (by decide)).2⟩

/-- C10: for every input name (not starting with the separator, as the
scripts' relative paths assume), the destination archive path joins the
output directory with the raw, unsanitized name plus the `.3mf` extension,
while every intermediate geometry file is named after the sanitized name
with blanks and separators replaced; for the name `a/b`, which contains a
path separator, the archive lands in the directory `output/a` while a
sanitized-name archive would land in `output` and the intermediate files
live in `output/temp_generation`. -/
theorem claim_C10_raw_name_destination (name : String)
    (h1 : startsWithSlash (name ++ ".3mf") = false)
    (h2 : startsWithSlash (GenerateBambu3mf.safeName name ++ "_base.scad")
        = false) :
    (GenerateBambu3mf.nameplatePaths name).output3mf
        = "output/" ++ (name ++ ".3mf") ∧
    (GenerateBambu3mf.nameplatePaths name).scadBase
        = "output/temp_generation/"
            ++ (GenerateBambu3mf.safeName name ++ "_base.scad") ∧
    GenerateBambu3mf.safeName "a/b" = "a_b" ∧
    dirname ((GenerateBambu3mf.nameplatePaths "a/b").output3mf)
        = "output/a" ∧
    dirname ((GenerateBambu3mf.nameplatePaths
        (GenerateBambu3mf.safeName "a/b")).output3mf) = "output" ∧
    dirname ((GenerateBambu3mf.nameplatePaths "a/b").scadBase)
        = "output/temp_generation" := by
  have hB : endsWithSlash GenerateBambu3mf.outputDir = false := by decide
  have hC : endsWithSlash GenerateBambu3mf.tempDir = false := by decide
  refine ⟨?_, ?_, by decide, by decide, by decide, by decide⟩
  · show osJoin GenerateBambu3mf.outputDir (name ++ ".3mf") = _
    rw [osJoin, h1, hB]
    rfl
  · show osJoin GenerateBambu3mf.tempDir
        (GenerateBambu3mf.safeName name ++ "_base.scad") = _
    rw [osJoin, h2, hC]
    rfl

/-- C10 witness: the general statement applied at the concrete name
`a/b`. -/
theorem claim_C10_witness :
    startsWithSlash ("a/b" ++ ".3mf") = false ∧
    startsWithSlash (GenerateBambu3mf.safeName "a/b" ++ "_base.scad")
        = false ∧
    (GenerateBambu3mf.nameplatePaths "a/b").output3mf
        = "output/" ++ ("a/b" ++ ".3mf") :=
  ⟨by decide, by decide,
   (claim_C10_raw_name_destination "a/b" (by decide) (by decide)).1⟩

/-- The only band declaration the code as written can produce — the two
paint bands hard-coded by `_create_model_settings` in
`generate_nameplates.py` — is interval-disjoint, so the spec-modelled
Region Assigner accepts it: no overlapping declaration can arise from the
scripts themselves. -/
theorem paintBands_accepted :
    SpecRegionAssigner.pairwiseDisjoint GenerateNameplates.paintBands
      = true := by
  simp [SpecRegionAssigner.pairwiseDisjoint, SpecRegionAssigner.bandsOverlap,
    GenerateNameplates.paintBands, GenerateNameplates.base_thickness,
    GenerateNameplates.text_height]
